import Mathlib

/-!
Verification of the repository token-budget estimator.

A shallow embedding of the token-budget estimator core:

* `src/utils/token_count.py` — the heuristic token estimator;
* `src/utils/estimate_repo_tokens.py` — per-file estimation, aggregation with a
  scaffolding overhead, and the CLI emit stage (report shape, optional
  persistence, exit code);
* `src/main.py` — the `estimate-repo` invocation layer (mutually exclusive,
  required `--repo`/`--dir` source selection).

Python `int` is modelled by `Int`, Python `str` by `String` (with `None`
modelled by `Option`), and Python `float` (IEEE-754 binary64) by the rational
value a finite double denotes, with every arithmetic operation followed by an
explicit round-to-nearest-even step (`roundDouble`); a Python exception during
the float pipeline (overflow to infinity, or an `int` too large to convert) is
modelled by `Option.none`.
-/

set_option maxRecDepth 40000

attribute [local semireducible] Rat.mul Rat.add Rat.sub Rat.inv

/-! Section: token estimator, from `src/utils/token_count.py`. -/

/-- Python function `_heuristic_token_count` (token_count.py lines 5-11).

The Python code computes `math.ceil(len(text) / 4)` and clamps with
`max(·, 0)`; `len(text)` is the number of characters of the string (the code's
own comment speaks of the UTF-8 length, but `len` on a `str` counts
characters).  `len(text) / 4` is exact float division by a power of two, so
`math.ceil(len(text) / 4)` is the arithmetic ceiling `(len + 3) / 4`. -/
def _heuristic_token_count (text : String) : Int :=
  if text = "" then 0
  else max (((text.length + 3) / 4 : Nat) : Int) 0

/-- Python function `count_tokens` (token_count.py lines 14-24): `text or ""` maps a missing
(`None`) or empty text to `""`; the `model` hint is accepted but unused. -/
def count_tokens (text : Option String) (model : Option String := none) : Int :=
  _heuristic_token_count (match text with
    | none => ""
    | some s => s)

/-- The token estimate as the spec's words describe it (spec §4.4 / §8):
`ceil(byte_length(content) / 4)` with `byte_length` the UTF-8 byte length,
and 0 for empty or absent content.  Stated only to compare against the
source-derived `count_tokens`. -/
def spec_token_estimate (content : Option String) : Int :=
  match content with
  | none => 0
  | some s => (((s.utf8ByteSize + 3) / 4 : Nat) : Int)

/-! Section: Python IEEE-754 binary64 arithmetic, as exact rationals.

`estimate_repo_tokens.py` line 61 computes
`int(sum_file_tokens * (overhead_percent / 100.0))` in double precision.
A finite double is exactly a rational `m * 2 ^ (e - 52)`; each Python float
operation rounds its exact rational result to the nearest double, ties to the
even mantissa, overflowing to infinity at `2 ^ 1024` (where `int()` raises). -/

/-- Floor of the base-2 logarithm of a positive natural, with explicit fuel
(enough for every number appearing in a double computation). -/
def natLog2F : Nat → Nat → Nat
  | 0, _ => 0
  | f + 1, n => if n < 2 then 0 else natLog2F f (n / 2) + 1

/-- Two to the integer power `z`, as a rational (computed through natural
number powers, which evaluate fast). -/
def pow2z (z : Int) : ℚ :=
  if 0 ≤ z then (((2 ^ z.toNat : Nat) : Int) : ℚ)
  else mkRat 1 (2 ^ (-z).toNat)

/-- Floor of the base-2 logarithm of a positive rational. -/
def ratLog2Floor (q : ℚ) : Int :=
  let a : Int := natLog2F 4200 q.num.natAbs
  let b : Int := natLog2F 4200 q.den
  if q < pow2z (a - b) then a - b - 1 else a - b

/-- Round a rational to the nearest integer, ties to the even integer
(IEEE-754 `roundTiesToEven` applied to a scaled significand). -/
def roundHalfEven (q : ℚ) : Int :=
  if q - (⌊q⌋ : ℚ) < 1 / 2 then ⌊q⌋
  else if 1 / 2 < q - (⌊q⌋ : ℚ) then ⌊q⌋ + 1
  else if ⌊q⌋ % 2 = 0 then ⌊q⌋ else ⌊q⌋ + 1

/-- Round a positive rational to the nearest double: scale into the binade
`[2 ^ e, 2 ^ (e + 1))` (bounded below by the subnormal range `e ≥ -1022`),
round the 53-bit significand to nearest-even, and overflow to infinity
(`none`) at `2 ^ 1024`. -/
def roundPosDouble (q : ℚ) : Option ℚ :=
  let e : Int := max (ratLog2Floor q) (-1022)
  let m : Int := roundHalfEven (q / pow2z (e - 52))
  let r : ℚ := (m : ℚ) * pow2z (e - 52)
  if r < pow2z 1024 then some r else none

/-- Round any rational to the nearest double (`none` models overflow to an
infinity, on which Python's `int()` raises `OverflowError`). -/
def roundDouble (q : ℚ) : Option ℚ :=
  if q = 0 then some 0
  else if 0 < q then roundPosDouble q
  else (roundPosDouble (-q)).map (fun r => -r)

/-- Python `int()` applied to a finite double: truncation toward zero. -/
def pyTruncToInt (q : ℚ) : Int :=
  if 0 ≤ q then ⌊q⌋ else -⌊-q⌋

/-- Line 61 of estimate_repo_tokens.py:
`overhead_tokens = int(sum_file_tokens * (overhead_percent / 100.0))`.
`overhead_percent / 100.0` and the product each round to the nearest double;
the arbitrary-precision `sum_file_tokens` is converted to a double by the
multiplication (raising, i.e. `none`, if it exceeds the double range). -/
def overheadTokens (sum_file_tokens : Int) (overhead_percent : ℚ) : Option Int :=
  match roundDouble (overhead_percent / 100) with
  | none => none
  | some r =>
    match roundDouble ((sum_file_tokens : ℚ)) with
    | none => none
    | some s =>
      match roundDouble (s * r) with
      | none => none
      | some prod => some (pyTruncToInt prod)

/-! Section: aggregation, `estimate_repo_tokens` (lines 35-72). -/

/-- One entry of the `per_file` list (lines 53–57). -/
structure PerFileEstimate where
  path : String
  size_bytes : Nat
  tokens : Int
deriving DecidableEq, Repr

/-- Line 52: `len(content.encode("utf-8")) if content is not None else 0`. -/
def size_bytes_of (content : Option String) : Nat :=
  match content with
  | none => 0
  | some c => c.utf8ByteSize

/-- The dictionary returned by `estimate_repo_tokens` (lines 64–72);
`max_context_tokens` is `None` until the caller fills it (line 89). -/
structure EstimateResult where
  model : Option String
  max_context_tokens : Option Int
  overhead_percent : ℚ
  sum_file_tokens : Int
  overhead_tokens : Int
  total_tokens : Int
  files : List PerFileEstimate
deriving DecidableEq, Repr

/-- The sum accumulated by the loop of lines 48–58. -/
def sum_file_tokens_of (files : List (String × Option String))
    (model : Option String) : Int :=
  (files.map (fun fc => count_tokens fc.2 model)).sum

/-- Function `estimate_repo_tokens` (lines 35-72), given the gathered `files` mapping
(an insertion-ordered Python dict, modelled as an association list), the
`model` hint and `overhead_percent`.  `none` models the float pipeline
raising. -/
def estimate_repo_tokens (files : List (String × Option String))
    (model : Option String) (overhead_percent : ℚ) : Option EstimateResult :=
  let per_file := files.map (fun fc =>
    { path := fc.1
      size_bytes := size_bytes_of fc.2
      tokens := count_tokens fc.2 model : PerFileEstimate })
  let sum := sum_file_tokens_of files model
  match overheadTokens sum overhead_percent with
  | none => none
  | some overhead =>
    some { model := model
           max_context_tokens := none
           overhead_percent := overhead_percent
           sum_file_tokens := sum
           overhead_tokens := overhead
           total_tokens := sum + overhead
           files := per_file }

/-! Section: emit stage of `run_estimate_cli` (lines 89-112). -/

/-- Observable outcome of the emit stage of `run_estimate_cli`:
the serialized payload (with `within_limit` and `max_context_tokens` filled),
the `file_count` of the concise stdout rendering, whether a persistence
warning was printed, and the returned exit code. -/
structure CliOutcome where
  payload : EstimateResult
  within_limit : Bool
  printed_file_count : Nat
  warning : Bool
  exit_code : Nat
deriving DecidableEq, Repr

/-- Lines 89–112 of `run_estimate_cli`: fill `max_context_tokens`, compute
`within_limit = total_tokens <= max_context_tokens`, print the payload minus
`files` plus `file_count`, optionally attempt the report write (a falsy `out`
skips it; a failed write only prints a warning), and return
`0 if within_limit else 2`.  `write_succeeds` models whether the attempted
`open`/`json.dump` raises. -/
def run_estimate_cli_emit (result : EstimateResult) (max_context_tokens : Int)
    (out : Option String) (write_succeeds : Bool) : CliOutcome :=
  let result := { result with max_context_tokens := some max_context_tokens }
  let within_limit : Bool := decide (result.total_tokens ≤ max_context_tokens)
  let wants_write : Bool := match out with
    | none => false
    | some s => decide (s ≠ "")
  { payload := result
    within_limit := within_limit
    printed_file_count := result.files.length
    warning := wants_write && !write_succeeds
    exit_code := if within_limit then 0 else 2 }

/-! Section: invocation dispatch, main.py lines 46-49 and `_gather_files`. -/

/-- The I/O action `_gather_files` dispatches to: crawling a local directory
or a remote repository.  Returning an `Except.error` instead means no crawl
(hence no file or network I/O) happens. -/
inductive GatherAction where
  | crawlLocal (path : String)
  | crawlGithub (url : String)
deriving DecidableEq, Repr

/-- Python truthiness of an optional string: `None` and `""` are falsy. -/
def truthy (s : Option String) : Bool :=
  match s with
  | none => false
  | some s => decide (s ≠ "")

/-- Python function `_gather_files` (estimate_repo_tokens.py lines 10-32) as a dispatcher:
`if source_path: …` then `if repo_url: …` then
`raise ValueError(...)`. -/
def gather_files_action (source_path repo_url : Option String) :
    Except String GatherAction :=
  if truthy source_path then .ok (.crawlLocal (source_path.getD ("")))
  else if truthy repo_url then .ok (.crawlGithub (repo_url.getD ("")))
  else .error ("Either source_path or repo_url must be provided.")

/-- Lines 47-49 of main.py: `--repo` and `--dir` form a required mutually
exclusive argparse group, so parsing fails (before anything else runs) when
both arguments are present or when neither is. -/
def parse_estimate_source (repo dir : Option String) :
    Except String (Option String × Option String) :=
  if repo.isSome && dir.isSome then
    .error ("argument --dir: not allowed with argument --repo")
  else if repo.isNone && dir.isNone then
    .error ("one of the arguments --repo --dir is required")
  else .ok (repo, dir)

/-- The `estimate-repo` entry point's source dispatch: argparse validation
(`main.py` lines 47–49), then `run_estimate_cli` forwarding `args.dir` as
`path` and `args.repo` as `repo` into `_gather_files`. -/
def main_estimate_action (repo dir : Option String) : Except String GatherAction := do
  let rd ← parse_estimate_source repo dir
  gather_files_action rd.2 rd.1


/-! Section: basic lemmas about the embedded definitions. -/

/-- The token estimator always returns a nonnegative integer. -/
theorem count_tokens_nonneg (text model : Option String) :
    0 ≤ count_tokens text model := by
  cases text with
  | none =>
    simp [count_tokens, _heuristic_token_count]
  | some s =>
    unfold count_tokens _heuristic_token_count
    dsimp only
    split
    · exact le_refl 0
    · exact le_max_right _ _

/-- Powers of two are positive rationals. -/
theorem pow2z_pos (z : Int) : 0 < pow2z z := by
  unfold pow2z
  split
  · positivity
  · rw [Rat.mkRat_eq_divInt, Rat.divInt_eq_div]
    positivity

/-- Rounding to nearest-even preserves nonnegativity. -/
theorem roundHalfEven_nonneg {q : ℚ} (hq : 0 ≤ q) : 0 ≤ roundHalfEven q := by
  have hf : 0 ≤ ⌊q⌋ := Int.floor_nonneg.mpr hq
  unfold roundHalfEven
  split
  · exact hf
  · split
    · omega
    · split
      · exact hf
      · omega


/-- Rounding a nonnegative rational to a double gives a nonnegative double. -/
theorem roundPosDouble_nonneg {q r : ℚ} (hq : 0 ≤ q)
    (h : roundPosDouble q = some r) : 0 ≤ r := by
  simp only [roundPosDouble] at h
  split at h
  · cases h
    exact mul_nonneg
      (Int.cast_nonneg.mpr (roundHalfEven_nonneg
        (div_nonneg hq (le_of_lt (pow2z_pos _)))))
      (le_of_lt (pow2z_pos _))
  · cases h

/-- Rounding a nonnegative rational to a double never yields a negative one. -/
theorem roundDouble_nonneg {q r : ℚ} (hq : 0 ≤ q)
    (h : roundDouble q = some r) : 0 ≤ r := by
  unfold roundDouble at h
  split at h
  · cases h
    exact le_refl 0
  · split at h
    · exact roundPosDouble_nonneg hq h
    · rename_i hne hnlt
      exact absurd (lt_of_le_of_ne hq (Ne.symm hne)) hnlt

/-- Truncation toward zero of a nonnegative rational is nonnegative. -/
theorem pyTruncToInt_nonneg {q : ℚ} (hq : 0 ≤ q) : 0 ≤ pyTruncToInt q := by
  unfold pyTruncToInt
  rw [if_pos hq]
  exact Int.floor_nonneg.mpr hq

/-- When the overhead computation does not raise, a nonnegative token sum and
a nonnegative overhead percentage give a nonnegative overhead. -/
theorem overheadTokens_nonneg {s : Int} {p : ℚ} {o : Int} (hs : 0 ≤ s)
    (hp : 0 ≤ p) (h : overheadTokens s p = some o) : 0 ≤ o := by
  unfold overheadTokens at h
  cases hr : roundDouble (p / 100) with
  | none => simp only [hr] at h; exact Option.noConfusion h
  | some r =>
    simp only [hr] at h
    cases hsf : roundDouble ((s : ℚ)) with
    | none => simp only [hsf] at h; exact Option.noConfusion h
    | some sf =>
      simp only [hsf] at h
      cases hpr : roundDouble (sf * r) with
      | none => simp only [hpr] at h; exact Option.noConfusion h
      | some prod =>
        simp only [hpr, Option.some.injEq] at h
        have hr0 : 0 ≤ r :=
          roundDouble_nonneg (div_nonneg hp (by norm_num)) hr
        have hsf0 : 0 ≤ sf := roundDouble_nonneg (Int.cast_nonneg.mpr hs) hsf
        have hprod : 0 ≤ prod := roundDouble_nonneg (mul_nonneg hsf0 hr0) hpr
        rw [← h]
        exact pyTruncToInt_nonneg hprod

/-- The per-file token sum is nonnegative. -/
theorem sum_file_tokens_of_nonneg (files : List (String × Option String))
    (model : Option String) : 0 ≤ sum_file_tokens_of files model := by
  unfold sum_file_tokens_of
  apply List.sum_nonneg
  intro x hx
  rcases List.mem_map.mp hx with ⟨fc, _, rfl⟩
  exact count_tokens_nonneg _ _

/-! Section: concrete values used by the closed-form instantiations below. -/

/-- A concrete report used to instantiate the emit-stage theorems. -/
def sampleReportC6 : EstimateResult :=
  { model := none, max_context_tokens := none, overhead_percent := 3,
    sum_file_tokens := 300, overhead_tokens := 9, total_tokens := 309,
    files := [] }

/-- The concrete result of estimating the one-file map `a ↦ "abcd"` with
overhead percent 3. -/
def resC2 : EstimateResult :=
  { model := none, max_context_tokens := none, overhead_percent := 3,
    sum_file_tokens := 1, overhead_tokens := 0, total_tokens := 1,
    files := [{ path := "a", size_bytes := 4, tokens := 1 }] }

/-- The concrete result of estimating the one-file map `a ↦ "héllo"` with
overhead percent 0. -/
def resC10 : EstimateResult :=
  { model := none, max_context_tokens := none, overhead_percent := 0,
    sum_file_tokens := 2, overhead_tokens := 0, total_tokens := 2,
    files := [{ path := "a", size_bytes := 6, tokens := 2 }] }

/-- A two-file map and a reordering of it, used to instantiate the
order-invariance theorem. -/
def permL1 : List (String × Option String) :=
  [("a", some ("abcd")), ("b", some ("xyz"))]

/-- The same two-file map as `permL1`, entries swapped. -/
def permL2 : List (String × Option String) :=
  [("b", some ("xyz")), ("a", some ("abcd"))]

/-! Section: the claims. -/

/-- C1: the claim states that the token estimator returns
`ceil(utf8_byte_length(content) / 4)`.  The code instead computes
`math.ceil(len(text) / 4)` over the *character* count (its own comment says
UTF-8 length): on the four-character, eight-UTF-8-byte string `"éééé"` the
code yields 1 token while the claimed byte-based formula
(`spec_token_estimate`) yields 2.  The code does agree with the claim on
ASCII content (4·k ASCII bytes give k tokens) and on empty or absent
content. -/
theorem claim_C1_char_count_not_utf8_bytes :
    count_tokens (some ("éééé")) none = 1 ∧
    spec_token_estimate (some ("éééé")) = 2 ∧
    ("éééé" : String).length = 4 ∧
    ("éééé" : String).utf8ByteSize = 8 ∧
    count_tokens (some ("abcdefgh")) none = 2 ∧
    count_tokens (some ("")) none = 0 ∧
    count_tokens none none = 0 := by
  decide

/-- C3: the `within_limit` flag computed and reported by the emit stage is
true exactly when `total_tokens <= max_context_tokens`, including at the
equality boundary. -/
theorem claim_C3_within_limit_iff (result : EstimateResult)
    (max_context_tokens : Int) (out : Option String) (write_succeeds : Bool) :
    (run_estimate_cli_emit result max_context_tokens out
        write_succeeds).within_limit = true ↔
      result.total_tokens ≤ max_context_tokens := by
  simp [run_estimate_cli_emit]

/-- C5: the emit stage returns exit code 0 exactly when `within_limit` holds
and 2 exactly when it does not; no other exit code is possible. -/
theorem claim_C5_exit_code_zero_or_two (result : EstimateResult)
    (max_context_tokens : Int) (out : Option String) (write_succeeds : Bool) :
    ((run_estimate_cli_emit result max_context_tokens out
        write_succeeds).exit_code = 0 ↔
      (run_estimate_cli_emit result max_context_tokens out
        write_succeeds).within_limit = true) ∧
    ((run_estimate_cli_emit result max_context_tokens out
        write_succeeds).exit_code = 2 ↔
      (run_estimate_cli_emit result max_context_tokens out
        write_succeeds).within_limit = false) ∧
    ((run_estimate_cli_emit result max_context_tokens out
        write_succeeds).exit_code = 0 ∨
      (run_estimate_cli_emit result max_context_tokens out
        write_succeeds).exit_code = 2) := by
  by_cases h : result.total_tokens ≤ max_context_tokens <;>
    simp [run_estimate_cli_emit, h]

/-- C6: when a destination path is supplied and the report write fails, the
failure surfaces as a warning and the exit code is identical to the one the
successful-write run returns. -/
theorem claim_C6_write_failure_warns_same_exit (result : EstimateResult)
    (max_context_tokens : Int) (dest : String) (hdest : dest ≠ "") :
    (run_estimate_cli_emit result max_context_tokens (some dest)
        false).warning = true ∧
    (run_estimate_cli_emit result max_context_tokens (some dest)
        false).exit_code =
      (run_estimate_cli_emit result max_context_tokens (some dest)
        true).exit_code := by
  simp [run_estimate_cli_emit, hdest]

/-- C6 witness: instantiation at a concrete report and destination. -/
theorem claim_C6_witness :
    ("report.json" : String) ≠ "" ∧
    ((run_estimate_cli_emit sampleReportC6 1000000 (some ("report.json"))
        false).warning = true ∧
     (run_estimate_cli_emit sampleReportC6 1000000 (some ("report.json"))
        false).exit_code =
       (run_estimate_cli_emit sampleReportC6 1000000 (some ("report.json"))
        true).exit_code) :=
  ⟨by decide,
   claim_C6_write_failure_warns_same_exit sampleReportC6 1000000
     ("report.json") (by decide)⟩

/-- C8: the token estimator is total and returns a nonnegative integer for
every input, including empty, absent and non-ASCII text (it is a total Lean
function built from character length, ceiling division and clamping, none of
which can fail). -/
theorem claim_C8_estimator_total_nonneg (text model : Option String) :
    0 ≤ count_tokens text model :=
  count_tokens_nonneg text model

/-- C9: the token estimate does not depend on the model hint: the `model`
argument is ignored by `count_tokens`. -/
theorem claim_C9_model_hint_independent (text m₁ m₂ : Option String) :
    count_tokens text m₁ = count_tokens text m₂ := rfl

/-- C4: the `estimate-repo` entry point rejects an invocation in which both
of `--repo`/`--dir` are present, and one in which neither is, returning an
error without ever producing a crawl action (the only way any file or
network I/O happens). -/
theorem claim_C4_invalid_invocation (repo dir : Option String)
    (h : (repo = none ∧ dir = none) ∨ (repo ≠ none ∧ dir ≠ none)) :
    ∃ msg, main_estimate_action repo dir = Except.error msg := by
  rcases h with ⟨h1, h2⟩ | ⟨h1, h2⟩
  · subst h1; subst h2
    exact ⟨_, rfl⟩
  · rcases Option.ne_none_iff_exists.mp h1 with ⟨r, hr⟩
    rcases Option.ne_none_iff_exists.mp h2 with ⟨d, hd⟩
    rw [← hr, ← hd]
    exact ⟨_, rfl⟩

/-- C4 witness: instantiation with both sources supplied. -/
theorem claim_C4_witness :
    (((some ("u") : Option String) = none ∧
        (some ("d") : Option String) = none) ∨
      ((some ("u") : Option String) ≠ none ∧
        (some ("d") : Option String) ≠ none)) ∧
    ∃ msg, main_estimate_action (some ("u")) (some ("d")) = Except.error msg :=
  ⟨Or.inr ⟨by decide, by decide⟩,
   claim_C4_invalid_invocation (some ("u")) (some ("d"))
     (Or.inr ⟨by decide, by decide⟩)⟩

/-- C7: aggregation is invariant under permutation of the per-file inputs:
reordering the file map leaves `sum_file_tokens` unchanged, and with it the
`overhead_tokens`, `total_tokens` and the within-limit decision of the
produced report. -/
theorem claim_C7_order_invariant (l₁ l₂ : List (String × Option String))
    (model : Option String) (p : ℚ) (mc : Int) (h : l₁.Perm l₂) :
    sum_file_tokens_of l₁ model = sum_file_tokens_of l₂ model ∧
    (estimate_repo_tokens l₁ model p).map (fun r =>
        (r.sum_file_tokens, r.overhead_tokens, r.total_tokens,
          decide (r.total_tokens ≤ mc))) =
      (estimate_repo_tokens l₂ model p).map (fun r =>
        (r.sum_file_tokens, r.overhead_tokens, r.total_tokens,
          decide (r.total_tokens ≤ mc))) := by
  have hs : sum_file_tokens_of l₁ model = sum_file_tokens_of l₂ model := by
    unfold sum_file_tokens_of
    exact (h.map _).sum_eq
  refine ⟨hs, ?_⟩
  simp only [estimate_repo_tokens]
  rw [hs]
  cases overheadTokens (sum_file_tokens_of l₂ model) p <;> rfl

/-- C7 witness: instantiation at a concrete two-file map and its swap. -/
theorem claim_C7_witness :
    permL1.Perm permL2 ∧
    (sum_file_tokens_of permL1 none = sum_file_tokens_of permL2 none ∧
     (estimate_repo_tokens permL1 none 3).map (fun r =>
         (r.sum_file_tokens, r.overhead_tokens, r.total_tokens,
           decide (r.total_tokens ≤ 100))) =
       (estimate_repo_tokens permL2 none 3).map (fun r =>
         (r.sum_file_tokens, r.overhead_tokens, r.total_tokens,
           decide (r.total_tokens ≤ 100)))) :=
  ⟨by decide, claim_C7_order_invariant permL1 permL2 none 3 100 (by decide)⟩

/-- C10: every file entry of the produced report carries
`size_bytes = len(content.encode("utf-8"))` (and 0 for absent content): the
report's `files` list is exactly the input map with each entry's UTF-8 byte
size and token estimate attached.  For non-ASCII content the byte size
exceeds the character count that the token estimate is based on, as the
one-character, two-byte string `"é"` shows. -/
theorem claim_C10_size_bytes_utf8 (files : List (String × Option String))
    (model : Option String) (p : ℚ) (res : EstimateResult)
    (hres : estimate_repo_tokens files model p = some res) :
    res.files = files.map (fun fc =>
      { path := fc.1, size_bytes := size_bytes_of fc.2,
        tokens := count_tokens fc.2 model : PerFileEstimate }) ∧
    size_bytes_of (some ("é")) = ("é" : String).utf8ByteSize ∧
    ("é" : String).length < ("é" : String).utf8ByteSize := by
  refine ⟨?_, rfl, by decide⟩
  simp only [estimate_repo_tokens] at hres
  cases h2 : overheadTokens (sum_file_tokens_of files model) p with
  | none => simp only [h2] at hres; exact Option.noConfusion hres
  | some o =>
    simp only [h2, Option.some.injEq] at hres
    rw [← hres]

/-- C10 witness: instantiation at the one-file map `a ↦ "héllo"`. -/
theorem claim_C10_witness :
    estimate_repo_tokens [("a", some ("héllo"))] none 0 = some resC10 ∧
    (resC10.files = [("a", some ("héllo"))].map (fun fc =>
      { path := fc.1, size_bytes := size_bytes_of fc.2,
        tokens := count_tokens fc.2 none : PerFileEstimate }) ∧
     size_bytes_of (some ("é")) = ("é" : String).utf8ByteSize ∧
     ("é" : String).length < ("é" : String).utf8ByteSize) :=
  ⟨by decide,
   claim_C10_size_bytes_utf8 [("a", some ("héllo"))] none 0 resC10 (by decide)⟩

/-- C2 counterexample: for the single-file token-count list
`[2000000000000057]` and overhead percentage 7, the code's double-precision
computation `int(sum * (7.0 / 100.0))` yields 140000000000004, while the
exact mathematical floor of `sum * 7 / 100` is 140000000000003: the rounding
of `7.0 / 100.0` to the nearest double (which lies slightly above `7/100`)
makes the product cross the next integer. -/
theorem claim_C2_counterexample :
    overheadTokens (([(2000000000000057 : Int)]).sum) 7 =
      some 140000000000004 ∧
    (⌊((2000000000000057 : Int) : ℚ) * 7 / 100⌋ : Int) = 140000000000003 ∧
    (140000000000004 : Int) ≠ 140000000000003 := by
  refine ⟨by decide, ?_, by decide⟩
  norm_num

/-- C2 (amended): `overhead_tokens` is the truncation toward zero of the
IEEE-754 double-precision product `sum_file_tokens * (overhead_percent /
100.0)` (`overheadTokens`), which is nonnegative for a nonnegative overhead
percentage but does not always equal the exact mathematical floor of
`sum_file_tokens * p / 100`; `total_tokens = sum_file_tokens +
overhead_tokens` holds unconditionally. -/
theorem claim_C2_overhead_double_precision
    (files : List (String × Option String)) (model : Option String) (p : ℚ)
    (res : EstimateResult) (hp : 0 ≤ p)
    (hres : estimate_repo_tokens files model p = some res) :
    overheadTokens res.sum_file_tokens p = some res.overhead_tokens ∧
    res.total_tokens = res.sum_file_tokens + res.overhead_tokens ∧
    0 ≤ res.overhead_tokens := by
  simp only [estimate_repo_tokens] at hres
  cases h2 : overheadTokens (sum_file_tokens_of files model) p with
  | none => simp only [h2] at hres; exact Option.noConfusion hres
  | some o =>
    simp only [h2, Option.some.injEq] at hres
    rw [← hres]
    exact ⟨h2, rfl,
      overheadTokens_nonneg (sum_file_tokens_of_nonneg files model) hp h2⟩

/-- C2 witness: instantiation at the one-file map `a ↦ "abcd"` with overhead
percentage 3 (where the double computation agrees with the exact floor). -/
theorem claim_C2_witness :
    (0 : ℚ) ≤ 3 ∧
    estimate_repo_tokens [("a", some ("abcd"))] none 3 = some resC2 ∧
    (overheadTokens resC2.sum_file_tokens 3 = some resC2.overhead_tokens ∧
     resC2.total_tokens = resC2.sum_file_tokens + resC2.overhead_tokens ∧
     0 ≤ resC2.overhead_tokens) :=
  ⟨by decide, by decide,
   claim_C2_overhead_double_precision [("a", some ("abcd"))] none 3 resC2
     (by decide) (by decide)⟩
